import Mathlib

/-!
Shallow embedding of `src/index.ts` of pixijs-userland/marching-ants:
the `MarqueeSelection` container (four tiling strips forming an animated
dashed selection rectangle).

JavaScript numbers are embedded as rationals (`ℚ`): every arithmetic
operation the claims exercise (adding `speed`, the `%` remainder, the
layout sums) is exact at the concrete inputs involved, so `ℚ` is the
idealized semantics of the `number` fields.  The JavaScript `%` operator
is the truncated-division remainder (result takes the sign of the
dividend); it is embedded as `jsRem` below.

External pixi.js collaborators are modelled at their interfaces:
* a `TilingSprite` is a record of position, size and tile offset (`Strip`);
* the canvas texture built in the constructor is a record of its
  dimensions, the `fillRect(0, 0, dash, dash)` extent, and its scale
  mode (`TextureState`), with the painted-pixel predicate derived from
  the standard `fillRect` contract;
* `Ticker.shared` keeps its own listener list, separate from the
  container's event emitter; for this one node it is modelled by the
  count `tickerListeners` of `(update, this)` listeners currently
  registered.  `Ticker.add` appends a listener (count + 1) and
  `Ticker.remove` removes every matching listener (count := 0).
  The base `Container.destroy` (pixi.js) detaches children, clears the
  container's own event emitter and marks the container destroyed; it
  does not know about the `Ticker`, so it leaves `tickerListeners`
  (and the externally controlled `visible` bit) unchanged.

Nullable references (`this._topLine`, …, `this._texture`, set to
`undefined` by `destroy`) are embedded as `Option`; a method body that
would dereference `undefined` is embedded as a function returning the
state mutated so far together with a `threw : Bool` flag, since a
JavaScript exception unwinds but keeps every in-place mutation made
before the throwing statement.
-/

/-- Truncation of a rational toward zero, as JavaScript truncates the
quotient when evaluating `%`. -/
def ratTrunc (q : ℚ) : ℤ :=
  if 0 ≤ q then ⌊q⌋ else ⌈q⌉

/-- The JavaScript `%` operator on finite numbers with nonzero divisor:
`a % b = a - b * trunc (a / b)`; the result takes the sign of the
dividend `a`. -/
def jsRem (a b : ℚ) : ℚ :=
  a - b * ratTrunc (a / b)

/-- The mathematical modulo `a - b * ⌊a / b⌋`, which for `b > 0` lands in
`[0, b)`.  This is the reading of "mod" used by the specification's
offset formulas; it is compared against `jsRem`, which is what the code
computes. -/
def mathMod (a b : ℚ) : ℚ :=
  a - b * ⌊a / b⌋

/-- Texture sampling mode (`texture.source.scaleMode`). -/
inductive ScaleMode where
  | nearest
  | linear
deriving DecidableEq

/-- Interface model of one `TilingSprite` strip: position, size, and the
tile offset (`tilePosition`). -/
structure Strip where
  x : ℚ
  y : ℚ
  width : ℚ
  height : ℚ
  tileX : ℚ
  tileY : ℚ
deriving DecidableEq

/-- Interface model of the dash texture the constructor builds: a canvas
of `(dash + dashSpace) × (dash + dashSpace)` pixels, transparent except
for the `fillRect(0, 0, dash, dash)` area, sampled with the scale mode
set on its source. -/
structure TextureState where
  width : ℚ
  height : ℚ
  fillW : ℚ
  fillH : ℚ
  fillStyle : String
  scaleMode : ScaleMode
deriving DecidableEq

/-- A point `(px, py)` of the canvas is painted (opaque) exactly when it
lies in the `fillRect(0, 0, fillW, fillH)` area; everything else of a
fresh canvas is transparent. -/
def TextureState.opaqueAt (tx : TextureState) (px py : ℚ) : Prop :=
  0 ≤ px ∧ px < tx.fillW ∧ 0 ≤ py ∧ py < tx.fillH

instance (tx : TextureState) (px py : ℚ) : Decidable (tx.opaqueAt px py) := by
  unfold TextureState.opaqueAt; infer_instance

/-- State of one `MarqueeSelection` node together with its slice of the
shared `Ticker` (the number of `(update, this)` listeners registered for
this node). -/
structure MarqueeSelection where
  thickness : ℚ
  dash : ℚ
  dashSpace : ℚ
  speed : ℚ
  /-- The `Container.visible` flag, externally controlled. -/
  visible : Bool
  /-- The `destroyed` flag the base `Container.destroy` sets. -/
  destroyed : Bool
  _autoUpdate : Bool
  _currentTime : ℚ
  _topLine : Option Strip
  _leftLine : Option Strip
  _rightLine : Option Strip
  _bottomLine : Option Strip
  _texture : Option TextureState
  /-- How many `(update, this)` listeners this node currently has on
  `Ticker.shared`. -/
  tickerListeners : ℕ
deriving DecidableEq

/-- Options `MarqueeSelectionOptions` with the documented defaults (plus the
`visible` member of the base `ContainerOptions`, default `true`). -/
structure MarqueeSelectionOptions where
  thickness : ℚ := 2
  color : String := "white"
  dash : ℚ := 2
  dashSpace : ℚ := 2
  speed : ℚ := 1/5
  width : ℚ := 100
  height : ℚ := 100
  autoUpdate : Bool := true
  visible : Bool := true

/-- The `resize(width, height)` method: repositions the four strips and sets the
top/bottom widths and left/right heights from the current `thickness`
and the new `width`/`height`.  On a destroyed node the first statement
`this._topLine.position.set(-l, -l)` dereferences `undefined`, so the
call throws before mutating anything (`destroy` nulls all four strips
together, so the strips are always all present or all absent). -/
def MarqueeSelection.resize (s : MarqueeSelection) (width height : ℚ) :
    MarqueeSelection × Bool :=
  match s._topLine, s._leftLine, s._rightLine, s._bottomLine with
  | some top, some left, some right, some bottom =>
    let l := s.thickness
    ({ s with
        _topLine := some { top with x := -l, y := -l, width := width + l * 2 }
        _leftLine := some { left with x := -l, y := 0, height := height }
        _rightLine := some { right with x := width, y := 0, height := height }
        _bottomLine := some { bottom with x := -l, y := height, width := width + l * 2 } }, false)
  | _, _, _, _ => (s, true)

/-- The `update()` method: a no-op when not visible; otherwise advances
`_currentTime` by `speed` and writes the four tile offsets through the
JavaScript `%` of the new time against `size = dash + dashSpace`.  On a
destroyed (but visible) node, `this._currentTime += this.speed` has
already happened when `this._topLine.tilePosition.x` dereferences
`undefined` and throws. -/
def MarqueeSelection.update (s : MarqueeSelection) : MarqueeSelection × Bool :=
  if s.visible then
    let t := s._currentTime + s.speed
    let size := s.dash + s.dashSpace
    match s._topLine, s._bottomLine, s._leftLine, s._rightLine with
    | some top, some bottom, some left, some right =>
      ({ s with
          _currentTime := t
          _topLine := some { top with tileX := jsRem t size }
          _bottomLine := some { bottom with tileX := jsRem (-t) size }
          _leftLine := some { left with tileY := jsRem (-t) size }
          _rightLine := some { right with tileY := jsRem t size } }, false)
    | _, _, _, _ => ({ s with _currentTime := t }, true)
  else (s, false)

/-- The `autoUpdate` setter: store the flag, `Ticker.shared.remove` every
`(update, this)` listener, then `Ticker.shared.add` one back when the
new value is `true`. -/
def MarqueeSelection.setAutoUpdate (s : MarqueeSelection) (value : Bool) :
    MarqueeSelection :=
  let s1 := { s with _autoUpdate := value, tickerListeners := 0 }
  if value then { s1 with tickerListeners := s1.tickerListeners + 1 } else s1

/-- The constructor: records the readonly options, builds the dash
texture (canvas of `(dash + dashSpace) × (dash + dashSpace)`, filled by
`fillRect(0, 0, dash, dash)` with the resolved color, nearest-neighbor
sampling), builds the four strips with their cross-axis extent
`thickness`, applies `resize(width, height)`, parents the strips, and
finally runs the `autoUpdate` setter. -/
def MarqueeSelection.construct (o : MarqueeSelectionOptions) :
    MarqueeSelection :=
  let texture : TextureState :=
    { width := o.dash + o.dashSpace, height := o.dash + o.dashSpace
      fillW := o.dash, fillH := o.dash
      fillStyle := o.color, scaleMode := .nearest }
  let base : MarqueeSelection :=
    { thickness := o.thickness, dash := o.dash, dashSpace := o.dashSpace
      speed := o.speed, visible := o.visible, destroyed := false
      _autoUpdate := true, _currentTime := 0
      _topLine := some { x := 0, y := 0, width := o.width,
                         height := o.thickness, tileX := 0, tileY := 0 }
      _leftLine := some { x := 0, y := 0, width := o.thickness,
                          height := o.height, tileX := 0, tileY := 0 }
      _rightLine := some { x := 0, y := 0, width := o.thickness,
                           height := o.height, tileX := 0, tileY := 0 }
      _bottomLine := some { x := 0, y := 0, width := o.width,
                            height := o.thickness, tileX := 0, tileY := 0 }
      _texture := some texture, tickerListeners := 0 }
  ((base.resize o.width o.height).1).setAutoUpdate o.autoUpdate

/-- The `destroy()` method: destroys the four strips and the texture, removes the
children, runs the base `Container.destroy(true)` (which marks the node
destroyed but does not touch the `Ticker`), and nulls the five internal
references.  On an already-destroyed node the very first statement
throws. -/
def MarqueeSelection.destroy (s : MarqueeSelection) : MarqueeSelection × Bool :=
  match s._topLine, s._leftLine, s._rightLine, s._bottomLine, s._texture with
  | some _, some _, some _, some _, some _ =>
    ({ s with
        destroyed := true
        _topLine := none
        _leftLine := none
        _rightLine := none
        _bottomLine := none
        _texture := none }, false)
  | _, _, _, _, _ => (s, true)

/-- The four strip references are all present ("live", as after
construction) . -/
def MarqueeSelection.live (s : MarqueeSelection) : Prop :=
  s._topLine.isSome ∧ s._leftLine.isSome ∧ s._rightLine.isSome ∧
    s._bottomLine.isSome ∧ s._texture.isSome

instance (s : MarqueeSelection) : Decidable s.live := by
  unfold MarqueeSelection.live; infer_instance

/-- Outer bounding box `(minX, minY, maxX, maxY)` of the four strips. -/
def MarqueeSelection.outerBBox (s : MarqueeSelection) :
    Option (ℚ × ℚ × ℚ × ℚ) :=
  match s._topLine, s._leftLine, s._rightLine, s._bottomLine with
  | some top, some left, some right, some bottom =>
    some (min (min (min top.x left.x) right.x) bottom.x,
          min (min (min top.y left.y) right.y) bottom.y,
          max (max (max (top.x + top.width) (left.x + left.width))
            (right.x + right.width)) (bottom.x + bottom.width),
          max (max (max (top.y + top.height) (left.y + left.height))
            (right.y + right.height)) (bottom.y + bottom.height))
  | _, _, _, _ => none

/-- Position `(x, y)` of a strip. -/
def Strip.pos (st : Strip) : ℚ × ℚ := (st.x, st.y)

/-- Position and size `(x, y, width, height)` of a strip — the geometry
of the strip, without the tile offset. -/
def Strip.rect (st : Strip) : ℚ × ℚ × ℚ × ℚ := (st.x, st.y, st.width, st.height)

/-- A node built with all defaults: `new MarqueeSelection()`. -/
def defaultNode : MarqueeSelection := MarqueeSelection.construct {}

/-- The option set of the end-to-end scenario:
`{width: 100, height: 50, thickness: 2, dash: 4, dashSpace: 4, speed: 0.2}`. -/
def e2eOptions : MarqueeSelectionOptions :=
  { width := 100, height := 50, thickness := 2, dash := 4, dashSpace := 4,
    speed := 1/5 }

/-- The node of the end-to-end scenario. -/
def e2eNode : MarqueeSelection := MarqueeSelection.construct e2eOptions

/-- A node that was hidden (`visible = false`, an externally controlled
base-container property) and then destroyed. -/
def hiddenDestroyedNode : MarqueeSelection :=
  ((MarqueeSelection.construct { visible := false }).destroy).1

/-- The default option set (`new MarqueeSelection()` with no options). -/
def defaultOptions : MarqueeSelectionOptions := {}

/-- A degenerate option set with `dash = 0`. -/
def degenerateOptions : MarqueeSelectionOptions := { dash := 0 }

/-- A second node sharing the default thickness but built with another
width. -/
def wideNode : MarqueeSelection := MarqueeSelection.construct { width := 7 }

theorem jsRem_of_nonneg_lt (a b : ℚ) (h0 : 0 ≤ a) (hab : a < b) :
    jsRem a b = a := by
  have hb : 0 < b := lt_of_le_of_lt h0 hab
  have hq0 : 0 ≤ a / b := div_nonneg h0 hb.le
  have hq1 : a / b < 1 := (div_lt_one hb).mpr hab
  have hfl : ⌊a / b⌋ = 0 := by
    rw [Int.floor_eq_iff]
    simp_all
  simp [jsRem, ratTrunc, hq0, hfl]

theorem ratTrunc_neg (q : ℚ) : ratTrunc (-q) = -ratTrunc q := by
  unfold ratTrunc
  rcases lt_trichotomy q 0 with h | h | h
  · rw [if_pos (by linarith), if_neg (by linarith), Int.floor_neg]
  · simp [h]
  · rw [if_neg (by linarith), if_pos h.le, Int.ceil_neg]

theorem jsRem_neg (a b : ℚ) : jsRem (-a) b = -jsRem a b := by
  simp only [jsRem, neg_div, ratTrunc_neg]
  push_cast
  ring

/-- The remainder `jsRem` agrees with the mathematical modulo on nonnegative dividends
(and a positive divisor). -/
theorem jsRem_eq_mathMod_of_nonneg (a b : ℚ) (h0 : 0 ≤ a) (hb : 0 < b) :
    jsRem a b = mathMod a b := by
  simp [jsRem, mathMod, ratTrunc, div_nonneg h0 hb.le]

/-- The four strips of a freshly constructed node are present, as is its
texture. -/
theorem construct_live (o : MarqueeSelectionOptions) :
    (MarqueeSelection.construct o).live := by
  cases hau : o.autoUpdate <;>
    simp [MarqueeSelection.construct, MarqueeSelection.resize,
      MarqueeSelection.setAutoUpdate, MarqueeSelection.live, hau]

/-- C1 (amended): for every visible state (strips present, positive
period), `update()` advances `_currentTime` by exactly `speed` and sets
the offsets through the JavaScript `%` remainder (which takes the sign
of its dividend, not the mathematical modulo into `[0, period)`): the
top and right offsets are `jsRem t period` and the bottom and left
offsets are `jsRem (-t) period = -(jsRem t period)`, with
`t = currentTime` after the advance and `period = dash + dashSpace`. -/
theorem update_visible_advances_time_and_sets_offsets
    (s : MarqueeSelection) (hv : s.visible = true) (hlive : s.live)
    (hp : 0 < s.dash + s.dashSpace) :
    s.update.2 = false ∧
    s.update.1._currentTime = s._currentTime + s.speed ∧
    s.update.1._topLine.map Strip.tileX =
      some (jsRem (s._currentTime + s.speed) (s.dash + s.dashSpace)) ∧
    s.update.1._bottomLine.map Strip.tileX =
      some (-jsRem (s._currentTime + s.speed) (s.dash + s.dashSpace)) ∧
    s.update.1._leftLine.map Strip.tileY =
      some (-jsRem (s._currentTime + s.speed) (s.dash + s.dashSpace)) ∧
    s.update.1._rightLine.map Strip.tileY =
      some (jsRem (s._currentTime + s.speed) (s.dash + s.dashSpace)) := by
  obtain ⟨h1, h2, h3, h4, h5⟩ := hlive
  obtain ⟨top, htop⟩ := Option.isSome_iff_exists.mp h1
  obtain ⟨left, hleft⟩ := Option.isSome_iff_exists.mp h2
  obtain ⟨right, hright⟩ := Option.isSome_iff_exists.mp h3
  obtain ⟨bottom, hbottom⟩ := Option.isSome_iff_exists.mp h4
  simp [MarqueeSelection.update, hv, htop, hleft, hright, hbottom, ← jsRem_neg]

/-- C1 witness: the amended statement instantiated at the
default-constructed node. -/
theorem update_visible_offsets_witness :
    (defaultNode.visible = true ∧ defaultNode.live ∧
      0 < defaultNode.dash + defaultNode.dashSpace) ∧
    (defaultNode.update.2 = false ∧
      defaultNode.update.1._currentTime =
        defaultNode._currentTime + defaultNode.speed ∧
      defaultNode.update.1._topLine.map Strip.tileX =
        some (jsRem (defaultNode._currentTime + defaultNode.speed)
          (defaultNode.dash + defaultNode.dashSpace)) ∧
      defaultNode.update.1._bottomLine.map Strip.tileX =
        some (-jsRem (defaultNode._currentTime + defaultNode.speed)
          (defaultNode.dash + defaultNode.dashSpace)) ∧
      defaultNode.update.1._leftLine.map Strip.tileY =
        some (-jsRem (defaultNode._currentTime + defaultNode.speed)
          (defaultNode.dash + defaultNode.dashSpace)) ∧
      defaultNode.update.1._rightLine.map Strip.tileY =
        some (jsRem (defaultNode._currentTime + defaultNode.speed)
          (defaultNode.dash + defaultNode.dashSpace))) := by
  have hv : defaultNode.visible = true := by
    simp [defaultNode, MarqueeSelection.construct, MarqueeSelection.resize,
      MarqueeSelection.setAutoUpdate]
  have hlive : defaultNode.live := construct_live {}
  have hp : 0 < defaultNode.dash + defaultNode.dashSpace := by
    simp [defaultNode, MarqueeSelection.construct, MarqueeSelection.resize,
      MarqueeSelection.setAutoUpdate]
  exact ⟨⟨hv, hlive, hp⟩,
    update_visible_advances_time_and_sets_offsets defaultNode hv hlive hp⟩

/-- C1 counterexample: on the default-constructed node (visible,
`currentTime = 0`, `speed = 0.2`, `period = 4`) one `update()` leaves
the bottom strip offset at `-0.2`, a negative value: it is not the
mathematical modulo `(-0.2) mod 4 = 3.8` and lies outside
`[0, period)`. -/
theorem update_bottom_offset_negative_cex :
    defaultNode.visible = true ∧
    defaultNode._currentTime = 0 ∧
    defaultNode.speed = 1/5 ∧
    defaultNode.dash + defaultNode.dashSpace = 4 ∧
    defaultNode.update.1._bottomLine.map Strip.tileX = some (-(1/5)) ∧
    mathMod (-(1/5)) 4 = 19/5 ∧
    ¬((-(1/5) : ℚ) = 19/5) ∧ ¬(0 ≤ (-(1/5) : ℚ)) := by
  have h4 : ((2:ℚ) + 2) = 4 := by norm_num
  have hfl : ⌊(-(1/5) : ℚ) / 4⌋ = -1 := by
    rw [Int.floor_eq_iff]
    norm_num
  refine ⟨?_, ?_, ?_, ?_, ?_, ?_, by norm_num, by norm_num⟩
  · simp [defaultNode, MarqueeSelection.construct, MarqueeSelection.resize,
      MarqueeSelection.setAutoUpdate]
  · simp [defaultNode, MarqueeSelection.construct, MarqueeSelection.resize,
      MarqueeSelection.setAutoUpdate]
  · simp [defaultNode, MarqueeSelection.construct, MarqueeSelection.resize,
      MarqueeSelection.setAutoUpdate]
  · simp [defaultNode, MarqueeSelection.construct, MarqueeSelection.resize,
      MarqueeSelection.setAutoUpdate]
    norm_num
  · simp [defaultNode, MarqueeSelection.construct, MarqueeSelection.resize,
      MarqueeSelection.setAutoUpdate, MarqueeSelection.update, h4]
    rw [jsRem_neg, jsRem_of_nonneg_lt 5⁻¹ 4 (by norm_num) (by norm_num)]
  · rw [mathMod, hfl]
    norm_num

/-- C2 (amended): the end-to-end scenario.  Constructing with
`{width: 100, height: 50, thickness: 2, dash: 4, dashSpace: 4,
speed: 0.2}` lays the top strip at `(-2, -2)` with size `104 × 2`, the
bottom strip at `(-2, 50)` with size `104 × 2`, the left strip at
`(-2, 0)` with size `2 × 50` and the right strip at `(100, 0)` with
size `2 × 50`; after exactly one `update()` on the (visible) node the
top and right tile offsets are `0.2` and the bottom and left tile
offsets are `-0.2` (the JavaScript remainder keeps the dividend's
sign; the offsets are not `7.8`). -/
theorem e2e_layout_and_first_update :
    e2eNode._topLine.map Strip.rect = some (-2, -2, 104, 2) ∧
    e2eNode._bottomLine.map Strip.rect = some (-2, 50, 104, 2) ∧
    e2eNode._leftLine.map Strip.rect = some (-2, 0, 2, 50) ∧
    e2eNode._rightLine.map Strip.rect = some (100, 0, 2, 50) ∧
    e2eNode.visible = true ∧
    e2eNode.update.1._topLine.map Strip.tileX = some (1/5) ∧
    e2eNode.update.1._bottomLine.map Strip.tileX = some (-(1/5)) ∧
    e2eNode.update.1._leftLine.map Strip.tileY = some (-(1/5)) ∧
    e2eNode.update.1._rightLine.map Strip.tileY = some (1/5) ∧
    ((1:ℚ)/5 = 0.2) := by
  have h8 : ((4:ℚ) + 4) = 8 := by norm_num
  have hpos : jsRem (5⁻¹ : ℚ) 8 = 5⁻¹ :=
    jsRem_of_nonneg_lt 5⁻¹ 8 (by norm_num) (by norm_num)
  refine ⟨?_, ?_, ?_, ?_, ?_, ?_, ?_, ?_, ?_, by norm_num⟩ <;>
    simp [e2eNode, e2eOptions, MarqueeSelection.construct,
      MarqueeSelection.resize, MarqueeSelection.setAutoUpdate,
      MarqueeSelection.update, Strip.rect, h8, jsRem_neg, hpos] <;>
    norm_num

/-- C2 counterexample: in the end-to-end scenario the bottom and left
tile offsets after one `update()` are `-0.2`, not the `7.8` the claim
states. -/
theorem e2e_bottom_left_offsets_cex :
    e2eNode.update.1._bottomLine.map Strip.tileX = some (-(1/5)) ∧
    e2eNode.update.1._leftLine.map Strip.tileY = some (-(1/5)) ∧
    ¬((-(1/5) : ℚ) = 7.8) := by
  have h8 : ((4:ℚ) + 4) = 8 := by norm_num
  have hpos : jsRem (5⁻¹ : ℚ) 8 = 5⁻¹ :=
    jsRem_of_nonneg_lt 5⁻¹ 8 (by norm_num) (by norm_num)
  refine ⟨?_, ?_, by norm_num⟩ <;>
    simp [e2eNode, e2eOptions, MarqueeSelection.construct,
      MarqueeSelection.resize, MarqueeSelection.setAutoUpdate,
      MarqueeSelection.update, h8, jsRem_neg, hpos]

/-- C3 (code demonstration at the failing input): after constructing
with the defaults (`autoUpdate = true`, one ticker listener) and calling
`destroy()`, the node's `update` is still registered on the shared
ticker (`destroy` never calls `Ticker.shared.remove`, and the base
`Container.destroy` does not know the ticker), so the next frame tick
still invokes `update`, which advances `_currentTime` from `0` to `0.2`
and then throws on the nulled `_topLine` — contradicting the claim that
no further invocation or mutation happens after `destroy()`. -/
theorem destroy_leaves_update_registered :
    defaultNode.tickerListeners = 1 ∧
    defaultNode.destroy.2 = false ∧
    defaultNode.destroy.1.tickerListeners = 1 ∧
    defaultNode.destroy.1.visible = true ∧
    defaultNode.destroy.1._currentTime = 0 ∧
    defaultNode.destroy.1.update.1._currentTime = 1/5 ∧
    ((1:ℚ)/5 ≠ 0) ∧
    defaultNode.destroy.1.update.2 = true := by
  refine ⟨?_, ?_, ?_, ?_, ?_, ?_, by norm_num, ?_⟩ <;>
    simp [defaultNode, MarqueeSelection.construct, MarqueeSelection.resize,
      MarqueeSelection.setAutoUpdate, MarqueeSelection.destroy,
      MarqueeSelection.update]

/-- C6: for every state in which the node is not visible, `update()` is
a no-op: it returns the state unchanged (no time advance, no offset
writes) and throws nothing. -/
theorem update_invisible_noop (s : MarqueeSelection)
    (hv : s.visible = false) : s.update = (s, false) := by
  simp [MarqueeSelection.update, hv]

/-- C6 witness: `update()` on a node constructed hidden is a no-op. -/
theorem update_invisible_noop_witness :
    (MarqueeSelection.construct { visible := false }).visible = false ∧
    (MarqueeSelection.construct { visible := false }).update =
      ((MarqueeSelection.construct { visible := false }), false) := by
  have hv : (MarqueeSelection.construct { visible := false }).visible = false := by
    simp [MarqueeSelection.construct, MarqueeSelection.resize,
      MarqueeSelection.setAutoUpdate]
  exact ⟨hv, update_invisible_noop _ hv⟩

/-- C7: the `autoUpdate` setter deregisters and conditionally
re-registers, so whatever the prior registration state, the node ends
with exactly one listener when the value is `true` and none when it is
`false`; assigning the same value twice is the same as assigning it
once, and in particular assigning `true` twice leaves exactly one
registration. -/
theorem setAutoUpdate_idempotent (s : MarqueeSelection) (v : Bool) :
    (s.setAutoUpdate v).tickerListeners = (if v then 1 else 0) ∧
    (s.setAutoUpdate v)._autoUpdate = v ∧
    (s.setAutoUpdate v).setAutoUpdate v = s.setAutoUpdate v ∧
    ((s.setAutoUpdate true).setAutoUpdate true).tickerListeners = 1 ∧
    (s.setAutoUpdate false).tickerListeners = 0 := by
  cases v <;> simp [MarqueeSelection.setAutoUpdate]

/-- C9: `resize` mutates only the strips' positions and their lengths
along the edge axis; `_currentTime`, the four tile offsets, the
texture, the ticker registration, the readonly options, the visibility
and destroyed flags, and the strips' cross-axis thickness dimensions
(top/bottom heights, left/right widths) are all unchanged — this holds
for every state (on a destroyed node `resize` throws without mutating
anything at all). -/
theorem resize_mutates_only_layout (s : MarqueeSelection) (w h : ℚ) :
    (s.resize w h).1._currentTime = s._currentTime ∧
    (s.resize w h).1.speed = s.speed ∧
    (s.resize w h).1.visible = s.visible ∧
    (s.resize w h).1.destroyed = s.destroyed ∧
    (s.resize w h).1._autoUpdate = s._autoUpdate ∧
    (s.resize w h).1.tickerListeners = s.tickerListeners ∧
    (s.resize w h).1._texture = s._texture ∧
    (s.resize w h).1.thickness = s.thickness ∧
    (s.resize w h).1.dash = s.dash ∧
    (s.resize w h).1.dashSpace = s.dashSpace ∧
    (s.resize w h).1._topLine.map Strip.tileX = s._topLine.map Strip.tileX ∧
    (s.resize w h).1._topLine.map Strip.tileY = s._topLine.map Strip.tileY ∧
    (s.resize w h).1._bottomLine.map Strip.tileX = s._bottomLine.map Strip.tileX ∧
    (s.resize w h).1._bottomLine.map Strip.tileY = s._bottomLine.map Strip.tileY ∧
    (s.resize w h).1._leftLine.map Strip.tileX = s._leftLine.map Strip.tileX ∧
    (s.resize w h).1._leftLine.map Strip.tileY = s._leftLine.map Strip.tileY ∧
    (s.resize w h).1._rightLine.map Strip.tileX = s._rightLine.map Strip.tileX ∧
    (s.resize w h).1._rightLine.map Strip.tileY = s._rightLine.map Strip.tileY ∧
    (s.resize w h).1._topLine.map Strip.height = s._topLine.map Strip.height ∧
    (s.resize w h).1._bottomLine.map Strip.height = s._bottomLine.map Strip.height ∧
    (s.resize w h).1._leftLine.map Strip.width = s._leftLine.map Strip.width ∧
    (s.resize w h).1._rightLine.map Strip.width = s._rightLine.map Strip.width := by
  cases h1 : s._topLine <;> cases h2 : s._leftLine <;>
    cases h3 : s._rightLine <;> cases h4 : s._bottomLine <;>
    simp [MarqueeSelection.resize, h1, h2, h3, h4]

/-- C8: `resize` is idempotent — repeating the call with the same
arguments leaves the state (all strip positions and sizes included)
exactly as after the first call — and the layout it writes (strip
positions, the top/bottom widths, the left/right heights) is a
deterministic function of `thickness` and the arguments only: two live
nodes with equal `thickness` end up with the same written layout. -/
theorem resize_idempotent_and_deterministic
    (s1 s2 : MarqueeSelection) (w h : ℚ)
    (hl1 : s1.live) (hl2 : s2.live) (ht : s2.thickness = s1.thickness) :
    (s1.resize w h).1.resize w h = s1.resize w h ∧
    (s1.resize w h).2 = false ∧
    (s1.resize w h).1._topLine.map Strip.pos =
      (s2.resize w h).1._topLine.map Strip.pos ∧
    (s1.resize w h).1._topLine.map Strip.width =
      (s2.resize w h).1._topLine.map Strip.width ∧
    (s1.resize w h).1._bottomLine.map Strip.pos =
      (s2.resize w h).1._bottomLine.map Strip.pos ∧
    (s1.resize w h).1._bottomLine.map Strip.width =
      (s2.resize w h).1._bottomLine.map Strip.width ∧
    (s1.resize w h).1._leftLine.map Strip.pos =
      (s2.resize w h).1._leftLine.map Strip.pos ∧
    (s1.resize w h).1._leftLine.map Strip.height =
      (s2.resize w h).1._leftLine.map Strip.height ∧
    (s1.resize w h).1._rightLine.map Strip.pos =
      (s2.resize w h).1._rightLine.map Strip.pos ∧
    (s1.resize w h).1._rightLine.map Strip.height =
      (s2.resize w h).1._rightLine.map Strip.height := by
  obtain ⟨a1, b1, c1, d1, -⟩ := hl1
  obtain ⟨a2, b2, c2, d2, -⟩ := hl2
  obtain ⟨t1, ht1⟩ := Option.isSome_iff_exists.mp a1
  obtain ⟨l1, hle1⟩ := Option.isSome_iff_exists.mp b1
  obtain ⟨r1, hr1⟩ := Option.isSome_iff_exists.mp c1
  obtain ⟨bo1, hb1⟩ := Option.isSome_iff_exists.mp d1
  obtain ⟨t2, ht2⟩ := Option.isSome_iff_exists.mp a2
  obtain ⟨l2, hle2⟩ := Option.isSome_iff_exists.mp b2
  obtain ⟨r2, hr2⟩ := Option.isSome_iff_exists.mp c2
  obtain ⟨bo2, hb2⟩ := Option.isSome_iff_exists.mp d2
  simp [MarqueeSelection.resize, Strip.pos, ht, ht1, hle1, hr1, hb1,
    ht2, hle2, hr2, hb2]

/-- C8 witness: the idempotence/determinism statement instantiated at
two concretely constructed nodes and `resize(5, 6)`. -/
theorem resize_idempotent_witness :
    (defaultNode.live ∧ wideNode.live ∧
      wideNode.thickness = defaultNode.thickness) ∧
    ((defaultNode.resize 5 6).1.resize 5 6 = defaultNode.resize 5 6 ∧
      (defaultNode.resize 5 6).2 = false ∧
      (defaultNode.resize 5 6).1._topLine.map Strip.pos =
        (wideNode.resize 5 6).1._topLine.map Strip.pos ∧
      (defaultNode.resize 5 6).1._topLine.map Strip.width =
        (wideNode.resize 5 6).1._topLine.map Strip.width ∧
      (defaultNode.resize 5 6).1._bottomLine.map Strip.pos =
        (wideNode.resize 5 6).1._bottomLine.map Strip.pos ∧
      (defaultNode.resize 5 6).1._bottomLine.map Strip.width =
        (wideNode.resize 5 6).1._bottomLine.map Strip.width ∧
      (defaultNode.resize 5 6).1._leftLine.map Strip.pos =
        (wideNode.resize 5 6).1._leftLine.map Strip.pos ∧
      (defaultNode.resize 5 6).1._leftLine.map Strip.height =
        (wideNode.resize 5 6).1._leftLine.map Strip.height ∧
      (defaultNode.resize 5 6).1._rightLine.map Strip.pos =
        (wideNode.resize 5 6).1._rightLine.map Strip.pos ∧
      (defaultNode.resize 5 6).1._rightLine.map Strip.height =
        (wideNode.resize 5 6).1._rightLine.map Strip.height) := by
  have hl1 : defaultNode.live := construct_live {}
  have hl2 : wideNode.live := construct_live { width := 7 }
  have ht : wideNode.thickness = defaultNode.thickness := by
    simp [wideNode, defaultNode, MarqueeSelection.construct,
      MarqueeSelection.resize, MarqueeSelection.setAutoUpdate]
  exact ⟨⟨hl1, hl2, ht⟩,
    resize_idempotent_and_deterministic defaultNode wideNode 5 6 hl1 hl2 ht⟩

/-- C10 (amended): `destroy()` nulls the four strip references and the
texture reference, and afterwards `resize()` always throws a reference
error before mutating anything, and `update()` on a visible node throws
a reference error on the nulled `_topLine` (after the already-executed
time advance); only when the node is not visible does `update()` return
without error, because its visibility guard exits before touching any
of the dead resources. -/
theorem destroy_nulls_refs_and_fails_fast (s : MarqueeSelection)
    (hl : s.live) :
    s.destroy.2 = false ∧
    s.destroy.1._topLine = none ∧
    s.destroy.1._leftLine = none ∧
    s.destroy.1._rightLine = none ∧
    s.destroy.1._bottomLine = none ∧
    s.destroy.1._texture = none ∧
    (∀ w h : ℚ, s.destroy.1.resize w h = (s.destroy.1, true)) ∧
    (s.destroy.1.visible = true →
      s.destroy.1.update =
        ({ s.destroy.1 with
            _currentTime := s.destroy.1._currentTime + s.destroy.1.speed },
          true)) ∧
    (s.destroy.1.visible = false → s.destroy.1.update = (s.destroy.1, false)) := by
  obtain ⟨a1, b1, c1, d1, e1⟩ := hl
  obtain ⟨top, htop⟩ := Option.isSome_iff_exists.mp a1
  obtain ⟨left, hleft⟩ := Option.isSome_iff_exists.mp b1
  obtain ⟨right, hright⟩ := Option.isSome_iff_exists.mp c1
  obtain ⟨bottom, hbottom⟩ := Option.isSome_iff_exists.mp d1
  obtain ⟨tex, htex⟩ := Option.isSome_iff_exists.mp e1
  refine ⟨?_, ?_, ?_, ?_, ?_, ?_, ?_, ?_, ?_⟩ <;>
    simp [MarqueeSelection.destroy, MarqueeSelection.resize,
      MarqueeSelection.update, htop, hleft, hright, hbottom, htex]

/-- C10 witness: the amended statement instantiated at the
default-constructed node. -/
theorem destroy_fails_fast_witness :
    defaultNode.live ∧
    (defaultNode.destroy.2 = false ∧
      defaultNode.destroy.1._topLine = none ∧
      defaultNode.destroy.1._leftLine = none ∧
      defaultNode.destroy.1._rightLine = none ∧
      defaultNode.destroy.1._bottomLine = none ∧
      defaultNode.destroy.1._texture = none ∧
      (∀ w h : ℚ, defaultNode.destroy.1.resize w h =
        (defaultNode.destroy.1, true)) ∧
      (defaultNode.destroy.1.visible = true →
        defaultNode.destroy.1.update =
          ({ defaultNode.destroy.1 with
              _currentTime := defaultNode.destroy.1._currentTime +
                defaultNode.destroy.1.speed },
            true)) ∧
      (defaultNode.destroy.1.visible = false →
        defaultNode.destroy.1.update = (defaultNode.destroy.1, false))) := by
  have hl : defaultNode.live := construct_live {}
  exact ⟨hl, destroy_nulls_refs_and_fails_fast defaultNode hl⟩

/-- C10 counterexample: a node that is hidden and then destroyed.  Its
internal references are nulled, yet the claimed "any subsequent
invocation of update() fails with a reference error" is false: this
`update()` returns normally (it is a silent no-op), because the
visibility guard runs before any resource access. -/
theorem destroyed_hidden_update_no_error_cex :
    hiddenDestroyedNode._topLine = none ∧
    hiddenDestroyedNode._texture = none ∧
    hiddenDestroyedNode.visible = false ∧
    hiddenDestroyedNode.update = (hiddenDestroyedNode, false) := by
  refine ⟨?_, ?_, ?_, ?_⟩ <;>
    simp [hiddenDestroyedNode, MarqueeSelection.construct,
      MarqueeSelection.resize, MarqueeSelection.setAutoUpdate,
      MarqueeSelection.destroy, MarqueeSelection.update]

/-- C4: after `resize(width, height)` on a constructed node (any
options), with `t = thickness` and `width, height, t ≥ 0`: the top
strip sits at `(-t, -t)` with size `(width + 2t) × t`, the bottom strip
at `(-t, height)` with size `(width + 2t) × t`, the left strip at
`(-t, 0)` with size `t × height`, the right strip at `(width, 0)` with
size `t × height`, and the outer bounding box of the four strips spans
`(-t, -t)` to `(width + t, height + t)`. -/
theorem resize_geometry (o : MarqueeSelectionOptions) (w h : ℚ)
    (hw : 0 ≤ w) (hh : 0 ≤ h) (hth : 0 ≤ o.thickness) :
    ((MarqueeSelection.construct o).resize w h).1._topLine.map Strip.rect =
      some (-o.thickness, -o.thickness, w + 2 * o.thickness, o.thickness) ∧
    ((MarqueeSelection.construct o).resize w h).1._bottomLine.map Strip.rect =
      some (-o.thickness, h, w + 2 * o.thickness, o.thickness) ∧
    ((MarqueeSelection.construct o).resize w h).1._leftLine.map Strip.rect =
      some (-o.thickness, 0, o.thickness, h) ∧
    ((MarqueeSelection.construct o).resize w h).1._rightLine.map Strip.rect =
      some (w, 0, o.thickness, h) ∧
    ((MarqueeSelection.construct o).resize w h).1.outerBBox =
      some (-o.thickness, -o.thickness, w + o.thickness, h + o.thickness) := by
  refine ⟨?_, ?_, ?_, ?_, ?_⟩ <;>
    cases hau : o.autoUpdate <;>
      simp [MarqueeSelection.construct, MarqueeSelection.resize,
        MarqueeSelection.setAutoUpdate, Strip.rect, MarqueeSelection.outerBBox,
        hau, mul_comm]
  all_goals refine ⟨?_, ?_, ?_, ?_⟩
  all_goals (first
    | rfl
    | linarith
    | exact ⟨by linarith, by linarith⟩
    | (simp only [min_def, max_def]; split_ifs <;> linarith))

/-- C4 witness: the layout statement instantiated at the default
options and `resize(3, 4)`. -/
theorem resize_geometry_witness :
    (0 ≤ (3:ℚ) ∧ 0 ≤ (4:ℚ) ∧ 0 ≤ defaultOptions.thickness) ∧
    (((MarqueeSelection.construct defaultOptions).resize 3 4).1._topLine.map
        Strip.rect =
      some (-defaultOptions.thickness, -defaultOptions.thickness,
        3 + 2 * defaultOptions.thickness, defaultOptions.thickness) ∧
    ((MarqueeSelection.construct defaultOptions).resize 3 4).1._bottomLine.map
        Strip.rect =
      some (-defaultOptions.thickness, 4,
        3 + 2 * defaultOptions.thickness, defaultOptions.thickness) ∧
    ((MarqueeSelection.construct defaultOptions).resize 3 4).1._leftLine.map
        Strip.rect =
      some (-defaultOptions.thickness, 0, defaultOptions.thickness, 4) ∧
    ((MarqueeSelection.construct defaultOptions).resize 3 4).1._rightLine.map
        Strip.rect =
      some (3, 0, defaultOptions.thickness, 4) ∧
    ((MarqueeSelection.construct defaultOptions).resize 3 4).1.outerBBox =
      some (-defaultOptions.thickness, -defaultOptions.thickness,
        3 + defaultOptions.thickness, 4 + defaultOptions.thickness)) := by
  have h1 : (0:ℚ) ≤ 3 := by norm_num
  have h2 : (0:ℚ) ≤ 4 := by norm_num
  have h3 : (0:ℚ) ≤ defaultOptions.thickness := by
    simp [defaultOptions]
  exact ⟨⟨h1, h2, h3⟩, resize_geometry defaultOptions 3 4 h1 h2 h3⟩

/-- C5: for any `dash, dashSpace ≥ 0`, construction produces exactly one
texture: a `(dash + dashSpace) × (dash + dashSpace)` canvas whose
sub-rectangle `[0, dash) × [0, dash)` is painted with the configured
color and whose remaining pixels are transparent, sampled
nearest-neighbor; and `resize` never replaces or regenerates it.
`dash = 0` or `dashSpace = 0` still yields this (degenerate) texture
with no error. -/
theorem construct_texture_spec (o : MarqueeSelectionOptions)
    (hd : 0 ≤ o.dash) (hs : 0 ≤ o.dashSpace) :
    ∃ tex : TextureState,
      (MarqueeSelection.construct o)._texture = some tex ∧
      tex.width = o.dash + o.dashSpace ∧
      tex.height = o.dash + o.dashSpace ∧
      tex.scaleMode = ScaleMode.nearest ∧
      tex.fillStyle = o.color ∧
      (∀ px py : ℚ, tex.opaqueAt px py ↔
        (0 ≤ px ∧ px < o.dash ∧ 0 ≤ py ∧ py < o.dash)) ∧
      (∀ w h : ℚ,
        ((MarqueeSelection.construct o).resize w h).1._texture = some tex) := by
  refine ⟨⟨o.dash + o.dashSpace, o.dash + o.dashSpace, o.dash, o.dash,
    o.color, ScaleMode.nearest⟩, ?_, rfl, rfl, rfl, rfl, ?_, ?_⟩
  · cases hau : o.autoUpdate <;>
      simp [MarqueeSelection.construct, MarqueeSelection.resize,
        MarqueeSelection.setAutoUpdate, hau]
  · intro px py
    simp [TextureState.opaqueAt]
  · intro w h
    cases hau : o.autoUpdate <;>
      simp [MarqueeSelection.construct, MarqueeSelection.resize,
        MarqueeSelection.setAutoUpdate, hau]

/-- C5 witness: the texture statement instantiated at the degenerate
option set with `dash = 0`. -/
theorem construct_texture_witness :
    (0 ≤ degenerateOptions.dash ∧ 0 ≤ degenerateOptions.dashSpace) ∧
    (∃ tex : TextureState,
      (MarqueeSelection.construct degenerateOptions)._texture = some tex ∧
      tex.width = degenerateOptions.dash + degenerateOptions.dashSpace ∧
      tex.height = degenerateOptions.dash + degenerateOptions.dashSpace ∧
      tex.scaleMode = ScaleMode.nearest ∧
      tex.fillStyle = degenerateOptions.color ∧
      (∀ px py : ℚ, tex.opaqueAt px py ↔
        (0 ≤ px ∧ px < degenerateOptions.dash ∧ 0 ≤ py ∧
          py < degenerateOptions.dash)) ∧
      (∀ w h : ℚ,
        ((MarqueeSelection.construct degenerateOptions).resize w h).1._texture =
          some tex)) := by
  have hd : (0:ℚ) ≤ degenerateOptions.dash := by simp [degenerateOptions]
  have hs : (0:ℚ) ≤ degenerateOptions.dashSpace := by simp [degenerateOptions]
  exact ⟨⟨hd, hs⟩, construct_texture_spec degenerateOptions hd hs⟩
